import Mathlib

/-!
Verification of the confidential-data-hub core: a shallow embedding of the
secret unsealing engine, the KBS handshake/resource client and the
annotation-packet unwrapper, together with theorems checking the
natural-language specification against the code.

Bytes are modelled as `List Nat` with every element `< 256`.  External
collaborator crates (base64 codec, SHA-384, serde, the `resource_uri`
crate, the AEAD primitives and the RSA backend) are not part of the
repository sources; where a claim depends on them they are either
modelled from the spec (base64, ResourceUri) or abstracted as explicit
function parameters (hashing, AEAD, RSA, JSON header parsing).
-/

/-- Convert an `Option` into an `Except`, the way a `?` on a fallible
decode propagates an error in the source. -/
def ofOption (msg : String) : Option α → Except String α
  | none => .error msg
  | some a => .ok a

/-- The byte serialization of a string (`String::as_bytes` in the source;
for the ASCII data exchanged by the protocol this is the UTF-8 encoding). -/
def strBytes (s : String) : List Nat :=
  s.data.map Char.toNat

/-- A list of naturals is a well-formed byte string. -/
def ValidBytes (bs : List Nat) : Prop :=
  ∀ b ∈ bs, b < 256

instance : DecidablePred ValidBytes := fun bs =>
  inferInstanceAs (Decidable (∀ b ∈ bs, b < 256))

/-! ## Base64 codecs

Modelled from the spec: the `base64` crate engines
`general_purpose::STANDARD` (padded, canonical) and
`general_purpose::URL_SAFE_NO_PAD` used by the sources, described in
§4.1 of the spec as "base64 codecs". -/

/-- The standard base64 alphabet. -/
def b64Alphabet : List Char :=
  "ABCDEFGHIJKLMNOPQRSTUVWXYZabcdefghijklmnopqrstuvwxyz0123456789+/".data

/-- The URL-safe base64 alphabet. -/
def b64UrlAlphabet : List Char :=
  "ABCDEFGHIJKLMNOPQRSTUVWXYZabcdefghijklmnopqrstuvwxyz0123456789-_".data

/-- The character encoding a 6-bit group, standard alphabet. -/
def sextetChar (n : Nat) : Char :=
  b64Alphabet.getD n 'A'

/-- Decode one standard-alphabet character back to its 6-bit value. -/
def charSextet (c : Char) : Option Nat :=
  b64Alphabet.findIdx? (fun x => x = c)

/-- Decode one URL-safe-alphabet character back to its 6-bit value. -/
def charSextetUrl (c : Char) : Option Nat :=
  b64UrlAlphabet.findIdx? (fun x => x = c)

/-- Standard base64 encoding of a byte string, as a character list:
three bytes become four alphabet characters, a final partial chunk is
padded with `=`. -/
def b64EncodeChars : List Nat → List Char
  | [] => []
  | [b0] =>
      [sextetChar (b0 / 4), sextetChar (b0 % 4 * 16), '=', '=']
  | [b0, b1] =>
      [sextetChar (b0 / 4), sextetChar (b0 % 4 * 16 + b1 / 16),
       sextetChar (b1 % 16 * 4), '=']
  | b0 :: b1 :: b2 :: rest =>
      sextetChar (b0 / 4) :: sextetChar (b0 % 4 * 16 + b1 / 16) ::
      sextetChar (b1 % 16 * 4 + b2 / 64) :: sextetChar (b2 % 64) ::
      b64EncodeChars rest

/-- Standard (padded) base64 encoding, `STANDARD.encode` in the source. -/
def base64Encode (bs : List Nat) : String :=
  String.mk (b64EncodeChars bs)

/-- Canonical decoding of standard (padded) base64, group by group. -/
def b64DecodeChars : List Char → Option (List Nat)
  | [] => some []
  | c0 :: c1 :: '=' :: '=' :: [] => do
      let s0 ← charSextet c0
      let s1 ← charSextet c1
      if s1 % 16 = 0 then some [s0 * 4 + s1 / 16] else none
  | c0 :: c1 :: c2 :: '=' :: [] => do
      let s0 ← charSextet c0
      let s1 ← charSextet c1
      let s2 ← charSextet c2
      if s2 % 4 = 0 then
        some [s0 * 4 + s1 / 16, s1 % 16 * 16 + s2 / 4]
      else none
  | c0 :: c1 :: c2 :: c3 :: rest => do
      let s0 ← charSextet c0
      let s1 ← charSextet c1
      let s2 ← charSextet c2
      let s3 ← charSextet c3
      let bs ← b64DecodeChars rest
      some ((s0 * 4 + s1 / 16) :: (s1 % 16 * 16 + s2 / 4) :: (s2 % 4 * 64 + s3) :: bs)
  | _ => none

/-- Standard (padded) base64 decoding, `STANDARD.decode` in the source. -/
def base64Decode (s : String) : Option (List Nat) :=
  b64DecodeChars s.data

/-- Decoding of unpadded URL-safe base64, group by group. -/
def b64UrlDecodeChars : List Char → Option (List Nat)
  | [] => some []
  | [_] => none
  | [c0, c1] => do
      let s0 ← charSextetUrl c0
      let s1 ← charSextetUrl c1
      if s1 % 16 = 0 then some [s0 * 4 + s1 / 16] else none
  | [c0, c1, c2] => do
      let s0 ← charSextetUrl c0
      let s1 ← charSextetUrl c1
      let s2 ← charSextetUrl c2
      if s2 % 4 = 0 then
        some [s0 * 4 + s1 / 16, s1 % 16 * 16 + s2 / 4]
      else none
  | c0 :: c1 :: c2 :: c3 :: rest => do
      let s0 ← charSextetUrl c0
      let s1 ← charSextetUrl c1
      let s2 ← charSextetUrl c2
      let s3 ← charSextetUrl c3
      let bs ← b64UrlDecodeChars rest
      some ((s0 * 4 + s1 / 16) :: (s1 % 16 * 16 + s2 / 4) :: (s2 % 4 * 64 + s3) :: bs)

/-- URL-safe no-pad base64 decoding, `URL_SAFE_NO_PAD.decode` in the
source. -/
def base64UrlDecode (s : String) : Option (List Nat) :=
  b64UrlDecodeChars s.data


/-! ## ResourceUri

Modelled from the spec: the external `resource_uri` crate.  Textual form
`kbs:///<repo>/<type>/<tag>`, where the repository defaults to
`"default"` when absent; `resource_path` is `<repo>/<type>/<tag>`. -/

structure ResourceUri where
  repository : String
  resource_type : String
  tag : String
deriving DecidableEq, Repr

/-- Split a character list on `'/'`. -/
def splitSlashAux : List Char → List Char → List (List Char)
  | [], acc => [acc.reverse]
  | '/' :: rest, acc => acc.reverse :: splitSlashAux rest []
  | c :: rest, acc => splitSlashAux rest (c :: acc)

/-- Parse the textual form of a KBS resource URI
(`ResourceUri::try_from(&str)` in the source). -/
def ResourceUri.try_from (s : String) : Except String ResourceUri :=
  match s.data with
  | 'k' :: 'b' :: 's' :: ':' :: '/' :: '/' :: rest =>
    match splitSlashAux rest [] with
    | [[], r, t, g] =>
      if r ≠ [] ∧ t ≠ [] ∧ g ≠ [] then
        .ok ⟨String.mk r, String.mk t, String.mk g⟩
      else .error "invalid KBS resource URI"
    | [[], t, g] =>
      if t ≠ [] ∧ g ≠ [] then
        .ok ⟨"default", String.mk t, String.mk g⟩
      else .error "invalid KBS resource URI"
    | _ => .error "invalid KBS resource URI"
  | _ => .error "invalid KBS resource URI"

/-- The path component used on the KBS wire, `<repo>/<type>/<tag>`. -/
def ResourceUri.resource_path (u : ResourceUri) : String :=
  u.repository ++ "/" ++ u.resource_type ++ "/" ++ u.tag

/-! ## Crypto primitives

`WrapType` and `PaddingMode` as used by the sources.  `WrapType` lives in
the external `crypto` crate and is modelled from the spec (§4.1: wrap
types A256GCM and A256CTR; the serialized names `Aes256Gcm`/`Aes256Ctr`
appear in the repository's own serialization tests).  `PaddingMode` is
embedded from `src/deps/crypto/src/rust/rsa.rs`. -/

inductive WrapType where
  | Aes256Gcm : WrapType
  | Aes256Ctr : WrapType
deriving DecidableEq, Repr

/-- Parse a wrap type from its wire name (`WrapType::try_from(&str)`). -/
def WrapType.try_from : String → Except String WrapType
  | "A256GCM" => .ok WrapType.Aes256Gcm
  | "A256CTR" => .ok WrapType.Aes256Ctr
  | other => .error ("Unsupported wrap type " ++ other)

/-- The name a `WrapType` serializes to in a `Secret` JSON document. -/
def WrapType.serializeName : WrapType → String
  | WrapType.Aes256Gcm => "Aes256Gcm"
  | WrapType.Aes256Ctr => "Aes256Ctr"

/-- RSA padding modes with their wire-visible labels, from
`src/deps/crypto/src/rust/rsa.rs` (`#[strum(serialize = ...)]`). -/
inductive PaddingMode where
  | OAEP : PaddingMode
  | PKCS1v15 : PaddingMode
deriving DecidableEq, Repr

/-- The strum `AsRefStr` label of a padding mode: `OAEP ↔ "RSA-OAEP"`,
`PKCS1v15 ↔ "RSA1_5"`. -/
def PaddingMode.as_ref : PaddingMode → String
  | PaddingMode.OAEP => "RSA-OAEP"
  | PaddingMode.PKCS1v15 => "RSA1_5"

/-- The symmetric AEAD/CTR interface of the external `crypto` crate
(spec §4.1): `encrypt`/`decrypt` take key, data, IV and wrap type.  The
concrete cipher lives outside the repository sources, so code that calls
it is parameterized over such a scheme. -/
structure SymScheme where
  encrypt : List Nat → List Nat → List Nat → WrapType → Except String (List Nat)
  decrypt : List Nat → List Nat → List Nat → WrapType → Except String (List Nat)

/-! ## Envelope secrets

Embedded from
`src/high-level-services/secret/src/secret/layout/envelope.rs` and
`src/high-level-services/secret/src/secret/mod.rs`.  The KBS client is
modelled as a `get_resource` function, the randomness an envelope seal
draws (`rand::thread_rng().fill`) as explicit byte-list arguments. -/

structure Envelope where
  key_id : String
  encrypted_key : String
  encrypted_data : String
  wrap_type : WrapType
  iv : String
  annotations : List (String × String)
deriving DecidableEq, Repr

/-- `Envelope::unseal_with_kbs`: decode the wrapped DEK, fetch the KEK
from KBS by the parsed `key_id`, unwrap the DEK under A256GCM with the
IV taken from `annotations["iv"]`, then decrypt the payload. -/
def Envelope.unseal_with_kbs (S : SymScheme)
    (get_resource : ResourceUri → Except String (List Nat))
    (e : Envelope) : Except String (List Nat) := do
  let enc_dek ← ofOption "base64 decode error" (base64Decode e.encrypted_key)
  let key_url ← match ResourceUri.try_from e.key_id with
    | .error er => Except.error ("parse key id as resource uri failed: " ++ er)
    | .ok u => Except.ok u
  let key ← get_resource key_url
  let ivAnn ← match List.lookup "iv" e.annotations with
    | none => Except.error "No `iv` field given in a KBS-sealed envelope secret"
    | some c => ofOption "base64 decode error" (base64Decode c)
  let datakey ← S.decrypt key enc_dek ivAnn WrapType.Aes256Gcm
  let iv ← ofOption "base64 decode error" (base64Decode e.iv)
  let ciphertext ← ofOption "base64 decode error" (base64Decode e.encrypted_data)
  S.decrypt datakey ciphertext iv e.wrap_type

/-- `Envelope::seal_with_kbs`: AES-256-GCM-encrypt the data under a
fresh DEK with a fresh data IV, fetch the KEK from KBS by `keyid`, wrap
the DEK under the KEK with a fresh KEK-IV recorded base64-encoded in
`annotations["iv"]`. -/
def Envelope.seal_with_kbs (S : SymScheme)
    (get_resource : ResourceUri → Except String (List Nat))
    (symmetric_key symmetric_iv sealed_iv : List Nat)
    (keyid : String) (data : List Nat) : Except String Envelope := do
  let ciphertext ← S.encrypt symmetric_key data symmetric_iv WrapType.Aes256Gcm
  let key_url ← match ResourceUri.try_from keyid with
    | .error er => Except.error ("parse key id as resource uri failed: " ++ er)
    | .ok u => Except.ok u
  let key ← get_resource key_url
  let sealed_iv_base64 := base64Encode sealed_iv
  let encrypted_key ← S.encrypt key symmetric_key sealed_iv WrapType.Aes256Gcm
  Except.ok
    { key_id := keyid
      encrypted_key := base64Encode encrypted_key
      encrypted_data := base64Encode ciphertext
      wrap_type := WrapType.Aes256Gcm
      iv := base64Encode symmetric_iv
      annotations := [("iv", sealed_iv_base64)] }

/-- A vault secret: an indirect reference fetched by name. -/
structure VaultSecret where
  name : String
  annotations : List (String × String)
deriving DecidableEq, Repr

/-- The tagged content of a `Secret` (serde `#[serde(tag = "type")]`). -/
inductive SecretContent where
  | Envelope : Envelope → SecretContent
  | Vault : VaultSecret → SecretContent
deriving DecidableEq, Repr

/-- The `Secret` wrapper; the source field `r#type` holding the flattened
tagged content is called `content` here. -/
structure Secret where
  version : String
  provider : String
  content : SecretContent
deriving DecidableEq, Repr

/-! ## JSON model

A minimal JSON value type, enough for the documents the repository
serializes (string fields and string maps), used to state facts about
serde-derived (de)serialization. -/

inductive Json where
  | str : String → Json
  | obj : List (String × Json) → Json

/-- Find a field of a JSON object. -/
def Json.lookupField (key : String) : Json → Option Json
  | .obj fields => List.lookup key fields
  | _ => none

/-- The field names of a JSON object, in serialization order. -/
def Json.topKeys : Json → List String
  | .obj fields => fields.map Prod.fst
  | _ => []

/-- The fields contributed by the flattened, internally tagged
`SecretContent` when a `Secret` is serialized. -/
def SecretContent.serializeFields : SecretContent → List (String × Json)
  | .Envelope e =>
      [("type", .str "Envelope"),
       ("key_id", .str e.key_id),
       ("encrypted_key", .str e.encrypted_key),
       ("encrypted_data", .str e.encrypted_data),
       ("wrap_type", .str (WrapType.serializeName e.wrap_type)),
       ("iv", .str e.iv),
       ("annotations", .obj (e.annotations.map fun kv => (kv.1, .str kv.2)))]
  | .Vault v =>
      [("type", .str "Vault"),
       ("name", .str v.name),
       ("annotations", .obj (v.annotations.map fun kv => (kv.1, .str kv.2)))]

/-- serde serialization of a `Secret`: `version`, `provider`, then the
flattened tagged content. -/
def Secret.serialize (s : Secret) : Json :=
  .obj (("version", .str s.version) :: ("provider", .str s.provider)
        :: SecretContent.serializeFields s.content)

/-! ## KBS handshake engine and resource client

Embedded from `src/auths/kbs_protocol/src/client.rs` and
`src/auths/kbs_protocol/src/tee_pubkey.rs`.  The external collaborators
(HTTP transport, attestation agent, SHA-384, serde, the RSA backend) are
collected in an explicit environment `HsEnv`; the per-session RSA key
pair type is a parameter `K`. -/

/-- The attested public key material sent to the KBS (`kbs_types::TeePubKey`,
modelled from spec §6: alg name, base64 modulus, base64 exponent). -/
structure TeePubKey where
  alg : String
  k_mod : String
  k_exp : String
deriving DecidableEq, Repr

/-- The parsed JWE protected header of a KBS response
(`ProtectedHeader` in the source: key-wrap algorithm name and payload
encryption algorithm). -/
structure ProtectedHeader where
  alg : String
  enc : WrapType
deriving DecidableEq, Repr

/-- A KBS JWE-like response (`kbs_types::Response`, modelled from spec
§6).  The source field `protected` is a Lean keyword and is called
`protectedHeader` here. -/
structure Response where
  protectedHeader : String
  encrypted_key : String
  iv : String
  ciphertext : String
deriving DecidableEq, Repr

/-- Reply to the POST on `/kbs/v0/attest`. -/
inductive AttestReply where
  | ok : String → AttestReply
  | unauthorized : String → AttestReply
  | other : String → AttestReply
deriving DecidableEq, Repr

/-- Reply to a GET on a KBS resource path. -/
inductive GetReply where
  | ok : Response → GetReply
  | unauthorized : GetReply
  | notFound : GetReply
  | other : String → GetReply
deriving DecidableEq, Repr

/-- The mutable state of `Handshaker`: the session key pair and the KBS
host URL, both set only by a successful handshake. -/
structure Handshaker (K : Type) where
  tee_key : Option K
  kbs_host_url : Option String
deriving DecidableEq, Repr

/-- The collaborators of the handshake engine: the `/auth` POST (returns
the challenge nonce), fresh RSA key generation and public-key export,
SHA-384, the TEE evidence agent, the `/attest` POST, RSA decryption,
JWE-header parsing and the per-attempt result of a resource GET. -/
structure HsEnv (K : Type) where
  auth : String → Except String String
  freshKey : K
  exportPubkey : K → TeePubKey
  hash : List Nat → List Nat
  getEvidence : String → Except String (List Nat)
  attest : String → TeePubKey → String → AttestReply
  rsaDecrypt : K → PaddingMode → List Nat → Except String (List Nat)
  parseHeader : String → Except String ProtectedHeader
  getHttp : String → Nat → GetReply

/-- The URL prefix of the KBS protocol, `KBS_URL_PREFIX` in the source. -/
def KBS_URL_PREFIX : String := "kbs/v0"

/-- `Handshaker::generate_evidence`: hash the nonce followed by each key
material, base64-encode the digest, submit it to the TEE evidence agent
and base64-encode the returned evidence blob. -/
def Handshaker.generate_evidence (env : HsEnv K) (nonce : String)
    (tee_key_materials : List (List Nat)) : Except String String :=
  let ehd := base64Encode
    (env.hash (tee_key_materials.foldl (fun acc m => acc ++ m) (strBytes nonce)))
  match env.getEvidence ehd with
  | .error e => .error ("Get TEE evidence failed: " ++ e)
  | .ok c => .ok (base64Encode c)

/-- `Handshaker::handshake`: POST `/auth` for a challenge, generate a
fresh key pair, attest the digest binding nonce and public key, POST
`/attest`; only an HTTP 200 updates the session state. -/
def Handshaker.handshake (env : HsEnv K) (hs : Handshaker K)
    (kbs_host_url : String) : Except String String × Handshaker K :=
  match env.auth kbs_host_url with
  | .error e => (.error e, hs)
  | .ok nonce =>
    let tee_keypair := env.freshKey
    let tee_pubkey := env.exportPubkey tee_keypair
    match Handshaker.generate_evidence env nonce
        [strBytes tee_pubkey.k_mod, strBytes tee_pubkey.k_exp] with
    | .error e => (.error e, hs)
    | .ok tee_evidence =>
      match env.attest kbs_host_url tee_pubkey tee_evidence with
      | .ok token =>
          (.ok token, { tee_key := some tee_keypair, kbs_host_url := some kbs_host_url })
      | .unauthorized error_info =>
          (.error ("KBS attest unauthorized, Error Info: " ++ error_info), hs)
      | .other t =>
          (.error ("KBS Server Internal Failed, Response: " ++ t), hs)

/-- `Handshaker::decrypt_response`: parse the protected header, require
`alg == "RSA1_5"`, base64url-nopad-decode the wrapped key, IV and
ciphertext, unwrap the symmetric key with RSA PKCS#1 v1.5 under the
session key pair, and decrypt the payload under the header's `enc`. -/
def Handshaker.decrypt_response (S : SymScheme) (env : HsEnv K)
    (hs : Handshaker K) (response : Response) : Except String (List Nat) := do
  let prot ← env.parseHeader response.protectedHeader
  if prot.alg = PaddingMode.as_ref PaddingMode.PKCS1v15 then do
    let wrapped_symkey ← ofOption "base64 decode error" (base64UrlDecode response.encrypted_key)
    let key ← match hs.tee_key with
      | none => Except.error "Handshake not called before!"
      | some k => Except.ok k
    let symkey ← env.rsaDecrypt key PaddingMode.PKCS1v15 wrapped_symkey
    let iv ← ofOption "base64 decode error" (base64UrlDecode response.iv)
    let ciphertext ← ofOption "base64 decode error" (base64UrlDecode response.ciphertext)
    S.decrypt symkey ciphertext iv prot.enc
  else Except.error "Algorithm mismatch for wrapped key."

/-- `Handshaker::get`: GET the resource under the remembered host; on 401
with retry budget left, re-handshake once against the same host and
retry with the budget exhausted.  The extra `attempt` argument numbers
the GET requests issued to the server; the result carries the final
state and the list of hosts against which a re-handshake was run. -/
def Handshaker.get (S : SymScheme) (env : HsEnv K) (hs : Handshaker K)
    (resource_url : ResourceUri) :
    Nat → Nat → Except String (List Nat) × Handshaker K × List String
  | retry, attempt =>
    match hs.kbs_host_url with
    | none => (.error "Handshake not called before!", hs, [])
    | some kbs_host_url =>
      let url := kbs_host_url ++ "/" ++ KBS_URL_PREFIX ++ "/"
        ++ ResourceUri.resource_path resource_url
      match env.getHttp url attempt with
      | .ok response =>
          (Handshaker.decrypt_response S env hs response, hs, [])
      | .unauthorized =>
        match retry with
        | 0 => (.error "Unauthorized request.", hs, [])
        | n + 1 =>
          match Handshaker.handshake env hs kbs_host_url with
          | (.error e, hs') => (.error e, hs', [kbs_host_url])
          | (.ok _, hs') =>
            let r := Handshaker.get S env hs' resource_url n (attempt + 1)
            (r.1, r.2.1, kbs_host_url :: r.2.2)
      | .notFound => (.error "KBS resource Not Found (Error 404)", hs, [])
      | .other t => (.error ("KBS Server Internal Failed, Response: " ++ t), hs, [])

/-! ## Annotation packets

Embedded from `src/high-level-services/image/src/annotation_packet/`
(`mod.rs`, `v1.rs`, `v2.rs`).  The KBS client is again a `get_resource`
function; a KMS driver is its `name()` plus its `decrypt` capability. -/

/-- Legacy annotation packet (`AnnotationPacketV1`): KBS-only, with the
kid already parsed as a `ResourceUri` during deserialization. -/
structure AnnotationPacketV1 where
  kid : ResourceUri
  wrapped_data : String
  iv : String
  wrap_type : String
deriving DecidableEq, Repr

/-- `AnnotationPacketV1::unwrap_key_with`: fetch the KEK by `kid`, decode
the IV and wrapped data, parse the wrap type, decrypt the LEK. -/
def AnnotationPacketV1.unwrap_key_with (S : SymScheme)
    (get_resource : ResourceUri → Except String (List Nat))
    (p : AnnotationPacketV1) : Except String (List Nat) := do
  let key ← get_resource p.kid
  let iv ← ofOption "decode iv" (base64Decode p.iv)
  let wrap_type ← WrapType.try_from p.wrap_type
  let wrapped_data ← ofOption "decode wrapped data" (base64Decode p.wrapped_data)
  S.decrypt key wrapped_data iv wrap_type

/-- New-format annotation packet (`AnnotationPacketV2`). -/
structure AnnotationPacketV2 where
  version : String
  kid : String
  wrapped_data : String
  provider : String
  iv : Option String
  wrap_type : Option String
  annotations : List (String × String)
deriving DecidableEq, Repr

/-- A KMS driver as the V2 unwrapper sees it: its `name()` and its
`decrypt(ciphertext, keyid, annotations)` capability. -/
structure KmsDriver where
  name : String
  decrypt : List Nat → String → List (String × String) → Except String (List Nat)

/-- The unwrapper a V2 packet is dispatched to (`Unwrapper` in the
source). -/
inductive Unwrapper where
  | Kms : KmsDriver → Unwrapper
  | Kbs : (ResourceUri → Except String (List Nat)) → Unwrapper

/-- `AnnotationPacketV2::unwrap_key_with`: the KBS branch requires
provider `"kbs"`, a `wrap_type`, an `iv` and a kid parsing as a
`ResourceUri`; the KMS branch decodes the wrapped data, requires the
driver's name to equal the packet's provider and calls the driver. -/
def AnnotationPacketV2.unwrap_key_with (S : SymScheme)
    (p : AnnotationPacketV2) : Unwrapper → Except String (List Nat)
  | .Kbs get_resource =>
    if p.provider ≠ "kbs" then
      .error ("The given provider is `kbs`, but the one of the KEK is " ++ p.provider)
    else
      match p.wrap_type with
      | none => .error "The KEK is provided by `kbs` but no `WrapType` is defined inside the AnnotationPacket"
      | some wrap_type =>
        match p.iv with
        | none => .error "The KEK is provided by `kbs` but no `iv` is defined inside the AnnotationPacket"
        | some iv =>
          match ResourceUri.try_from p.kid with
          | .error e => .error ("cannot parse the kid into a KBS Resource URI: " ++ e)
          | .ok resource_uri => do
            let key ← get_resource resource_uri
            let ivBytes ← ofOption "decode iv" (base64Decode iv)
            let wt ← WrapType.try_from wrap_type
            let wrapped_data ← ofOption "decode wrapped data" (base64Decode p.wrapped_data)
            S.decrypt key wrapped_data ivBytes wt
  | .Kms kms => do
    let wrapped_data ← ofOption "decode wrapped data" (base64Decode p.wrapped_data)
    let driver_name := kms.name
    if driver_name ≠ p.provider then
      .error ("cannot decrypt the LEK, because given KEK provider is " ++ driver_name
        ++ ", but " ++ p.provider ++ " expected")
    else
      kms.decrypt wrapped_data p.kid p.annotations

/-- The untagged union of the two packet formats (`AnnotationPacket`). -/
inductive AnnotationPacket where
  | V1 : AnnotationPacketV1 → AnnotationPacket
  | V2 : AnnotationPacketV2 → AnnotationPacket
deriving DecidableEq, Repr

/-- Read a JSON string value. -/
def Json.asString : Json → Option String
  | .str s => some s
  | _ => none

/-- Read a JSON object all of whose values are strings, as a map. -/
def Json.asStringMap : Json → Option (List (String × String))
  | .obj fields => fields.mapM fun kv => (Json.asString kv.2).map fun s => (kv.1, s)
  | _ => none

/-- serde deserialization of `AnnotationPacketV1` from a JSON object:
`kid` must be a string parsing as a `ResourceUri`, the other three
fields must be strings; unknown fields are ignored (serde's default). -/
def AnnotationPacketV1.deserialize (j : Json) : Option AnnotationPacketV1 :=
  match j with
  | .obj fields => do
    let kidStr ← (List.lookup "kid" fields).bind Json.asString
    let kid ← match ResourceUri.try_from kidStr with
      | .ok u => some u
      | .error _ => none
    let wrapped_data ← (List.lookup "wrapped_data" fields).bind Json.asString
    let iv ← (List.lookup "iv" fields).bind Json.asString
    let wrap_type ← (List.lookup "wrap_type" fields).bind Json.asString
    some ⟨kid, wrapped_data, iv, wrap_type⟩
  | _ => none

/-- Read an optional string field: absent is fine, present non-string is
a deserialization failure. -/
def optStringField (fields : List (String × Json)) (key : String) :
    Option (Option String) :=
  match List.lookup key fields with
  | none => some none
  | some j => (Json.asString j).map some

/-- serde deserialization of `AnnotationPacketV2` from a JSON object:
`version`, `kid`, `wrapped_data`, `provider` and `annotations` are
required, `iv` and `wrap_type` optional. -/
def AnnotationPacketV2.deserialize (j : Json) : Option AnnotationPacketV2 :=
  match j with
  | .obj fields => do
    let version ← (List.lookup "version" fields).bind Json.asString
    let kid ← (List.lookup "kid" fields).bind Json.asString
    let wrapped_data ← (List.lookup "wrapped_data" fields).bind Json.asString
    let provider ← (List.lookup "provider" fields).bind Json.asString
    let iv ← optStringField fields "iv"
    let wrap_type ← optStringField fields "wrap_type"
    let annotations ← (List.lookup "annotations" fields).bind Json.asStringMap
    some ⟨version, kid, wrapped_data, provider, iv, wrap_type, annotations⟩
  | _ => none

/-- serde deserialization of the untagged `AnnotationPacket`: try the V1
variant first, then the V2 variant (the declaration order of the
`#[serde(untagged)]` enum). -/
def AnnotationPacket.deserialize (j : Json) : Option AnnotationPacket :=
  match AnnotationPacketV1.deserialize j with
  | some v1 => some (.V1 v1)
  | none => (AnnotationPacketV2.deserialize j).map .V2

/-! ## Key provider input validation

Embedded from `src/hub/src/service/keyprovider/mod.rs`.  The JSON field
names `Parameters` and `DecryptConfig` are serde renames of the
`parameters` and `decrypt_config` fields used here. -/

/-- Decryption config: a map of base64 parameter lists (`Dc`). -/
structure Dc where
  parameters : List (String × List String)
deriving DecidableEq, Repr

/-- `Dc::empty`. -/
def Dc.empty (d : Dc) : Bool :=
  d.parameters.isEmpty

/-- Encryption config (`Ec`). -/
structure Ec where
  parameters : List (String × List String)
  decrypt_config : Dc
deriving DecidableEq, Repr

/-- `Ec::empty`. -/
def Ec.empty (e : Ec) : Bool :=
  e.parameters.isEmpty && Dc.empty e.decrypt_config

/-- `KeyWrapParams`. -/
structure KeyWrapParams where
  ec : Option Ec
  optsdata : Option String
deriving DecidableEq, Repr

/-- `KeyWrapParams::valid`: `ec` and `optsdata` must be absent or empty. -/
def KeyWrapParams.valid (p : KeyWrapParams) : Except String Unit :=
  let ec_empty := match p.ec with
    | some ec => Ec.empty ec
    | none => true
  if !ec_empty then .error "keywrap parameters should not include Ec"
  else
    let optsdata_empty := match p.optsdata with
      | some o => o.isEmpty
      | none => true
    if !optsdata_empty then .error "keywrap parameters should not include optsdata"
    else .ok ()

/-- `KeyUnwrapParams`. -/
structure KeyUnwrapParams where
  dc : Option Dc
  annotation : Option String
deriving DecidableEq, Repr

/-- `KeyUnwrapParams::valid`: `dc` must be present and non-empty, and the
base64 annotation string must be present and non-empty. -/
def KeyUnwrapParams.valid : KeyUnwrapParams → Except String Unit
  | ⟨dcField, annField⟩ =>
    let dc_empty := match dcField with
      | some d => Dc.empty d
      | none => true
    if dc_empty then .error "keyunwrap parameters must include Dc"
    else
      let ann_empty := match annField with
        | some a => a.isEmpty
        | none => true
      if ann_empty then .error "keyunwrap parameters must include annotation"
      else .ok ()

/-- `KeyProviderInput`. -/
structure KeyProviderInput where
  op : String
  keywrapparams : KeyWrapParams
  keyunwrapparams : KeyUnwrapParams
deriving DecidableEq, Repr

/-- `KeyProviderInput::valid`: `"keywrap"` is unsupported, `"keyunwrap"`
is accepted, the empty operator is missing, anything else invalid; then
both parameter blocks are validated. -/
def KeyProviderInput.valid (i : KeyProviderInput) : Except String Unit := do
  (match i.op with
   | "keywrap" =>
       Except.error ("unsupported operator: \"" ++ i.op
         ++ "\": use a different key provider to encrypt images")
   | "keyunwrap" => Except.ok ()
   | "" => Except.error "missing operator"
   | other => Except.error ("invalid operator: \"" ++ other ++ "\""))
  KeyWrapParams.valid i.keywrapparams
  KeyUnwrapParams.valid i.keyunwrapparams

/-- Reduction of a successful `Except` bind, used to unfold embedded
do-blocks in proofs. -/
theorem except_bind_ok (a : α) (f : α → Except ε β) :
    (Except.ok a >>= f : Except ε β) = f a := rfl

/-! ## Theorems for the claims -/

theorem charSextet_sextetChar : ∀ n < 64, charSextet (sextetChar n) = some n := by
  decide

theorem sextetChar_ne_pad : ∀ n < 64, ¬sextetChar n = '=' := by
  decide

theorem b64_roundtrip_chars (bs : List Nat) (h : ValidBytes bs) :
    b64DecodeChars (b64EncodeChars bs) = some bs := by
  induction bs using b64EncodeChars.induct with
  | case1 => simp [b64EncodeChars, b64DecodeChars]
  | case2 b0 =>
      have h0 : b0 < 256 := h b0 (by simp)
      rw [b64EncodeChars]
      rw [b64DecodeChars]
      rw [charSextet_sextetChar _ (by omega), charSextet_sextetChar _ (by omega)]
      have : b0 % 4 * 16 % 16 = 0 := by omega
      simp [Option.bind, this]
      omega
  | case3 b0 b1 =>
      have h0 : b0 < 256 := h b0 (by simp)
      have h1 : b1 < 256 := h b1 (by simp)
      rw [b64EncodeChars]
      rw [b64DecodeChars]
      rw [charSextet_sextetChar _ (by omega), charSextet_sextetChar _ (by omega),
          charSextet_sextetChar _ (by omega)]
      have : b1 % 16 * 4 % 4 = 0 := by omega
      · simp [Option.bind, this]
        constructor
        · omega
        · omega
      · exact fun hc => absurd hc (sextetChar_ne_pad _ (by omega))
  | case4 b0 b1 b2 rest ih =>
      have h0 : b0 < 256 := h b0 (by simp)
      have h1 : b1 < 256 := h b1 (by simp)
      have h2 : b2 < 256 := h b2 (by simp)
      have hrest : ValidBytes rest := by
        intro b hb
        exact h b (by simp [hb])
      rw [b64EncodeChars]
      rw [b64DecodeChars]
      rw [charSextet_sextetChar _ (by omega), charSextet_sextetChar _ (by omega),
          charSextet_sextetChar _ (by omega), charSextet_sextetChar _ (by omega)]
      · simp [Option.bind, ih hrest]
        refine ⟨by omega, by omega, by omega⟩
      · exact fun hc _ _ => absurd hc (sextetChar_ne_pad _ (by omega))
      · exact fun hc _ => absurd hc (sextetChar_ne_pad _ (by omega))

theorem base64_roundtrip (bs : List Nat) (h : ValidBytes bs) :
    base64Decode (base64Encode bs) = some bs := by
  simpa [base64Decode, base64Encode] using b64_roundtrip_chars bs h


/-- C4: for every nonce string N and public-key components k_mod, k_exp,
the challenge digest submitted to the TEE evidence agent equals the
standard-base64 encoding of the hash (SHA-384 in the source) of the
concatenation of the UTF-8 bytes of N, k_mod and k_exp, in that order;
the handshake passes exactly the materials `[k_mod, k_exp]` of the
session public key to this computation. -/
theorem C4_evidence_digest_binding :
    ∀ (K' : Type) (env : HsEnv K') (nonce kmod kexp : String),
      Handshaker.generate_evidence env nonce [strBytes kmod, strBytes kexp] =
        match env.getEvidence
            (base64Encode (env.hash (strBytes nonce ++ strBytes kmod ++ strBytes kexp))) with
        | .error e => .error ("Get TEE evidence failed: " ++ e)
        | .ok c => .ok (base64Encode c) := by
  intro K' env nonce kmod kexp
  simp [Handshaker.generate_evidence, List.foldl, List.append_assoc]

/-- C6: a V2 annotation packet with provider `"kbs"` is rejected when the
`iv` is absent (with the "provided by `kbs` but no `iv`" Schema error,
and never unwrapped successfully), when the `wrap_type` is absent, and
when the kid does not parse as a ResourceUri. -/
theorem C6_v2_kbs_schema_rejection :
    (∀ (S : SymScheme) (g : ResourceUri → Except String (List Nat))
        (p : AnnotationPacketV2) (wt : String),
      p.provider = "kbs" → p.iv = none → p.wrap_type = some wt →
      AnnotationPacketV2.unwrap_key_with S p (.Kbs g) =
        .error "The KEK is provided by `kbs` but no `iv` is defined inside the AnnotationPacket")
    ∧ (∀ (S : SymScheme) (g : ResourceUri → Except String (List Nat))
        (p : AnnotationPacketV2) (v : List Nat),
      p.provider = "kbs" → p.iv = none →
      AnnotationPacketV2.unwrap_key_with S p (.Kbs g) ≠ .ok v)
    ∧ (∀ (S : SymScheme) (g : ResourceUri → Except String (List Nat))
        (p : AnnotationPacketV2),
      p.provider = "kbs" → p.wrap_type = none →
      AnnotationPacketV2.unwrap_key_with S p (.Kbs g) =
        .error "The KEK is provided by `kbs` but no `WrapType` is defined inside the AnnotationPacket")
    ∧ (∀ (S : SymScheme) (g : ResourceUri → Except String (List Nat))
        (p : AnnotationPacketV2) (wt iv er : String),
      p.provider = "kbs" → p.wrap_type = some wt → p.iv = some iv →
      ResourceUri.try_from p.kid = .error er →
      AnnotationPacketV2.unwrap_key_with S p (.Kbs g) =
        .error ("cannot parse the kid into a KBS Resource URI: " ++ er)) := by
  refine ⟨?_, ?_, ?_, ?_⟩
  · intro S g p wt hp hiv hwt
    simp [AnnotationPacketV2.unwrap_key_with, hp, hiv, hwt]
  · intro S g p v hp hiv
    cases hwt : p.wrap_type with
    | none => simp [AnnotationPacketV2.unwrap_key_with, hp, hiv, hwt]
    | some wt => simp [AnnotationPacketV2.unwrap_key_with, hp, hiv, hwt]
  · intro S g p hp hwt
    simp [AnnotationPacketV2.unwrap_key_with, hp, hwt]
  · intro S g p wt iv er hp hwt hiv hkid
    simp [AnnotationPacketV2.unwrap_key_with, hp, hwt, hiv, hkid]

/-- Witness for C6 at concrete packets: provider `"kbs"` with a missing
iv, a missing wrap type, and an unparseable kid. -/
theorem C6_v2_kbs_schema_rejection_witness :
    (AnnotationPacketV2.unwrap_key_with
        ⟨fun _ _ _ _ => .ok [], fun _ _ _ _ => .ok []⟩
        ⟨"0.1.0", "kbs:///default/key/1", "", "kbs", none, some "A256GCM", []⟩
        (.Kbs (fun _ => .ok [])) =
      .error "The KEK is provided by `kbs` but no `iv` is defined inside the AnnotationPacket")
    ∧ (AnnotationPacketV2.unwrap_key_with
        ⟨fun _ _ _ _ => .ok [], fun _ _ _ _ => .ok []⟩
        ⟨"0.1.0", "kbs:///default/key/1", "", "kbs", none, some "A256GCM", []⟩
        (.Kbs (fun _ => .ok [])) ≠ .ok [])
    ∧ (AnnotationPacketV2.unwrap_key_with
        ⟨fun _ _ _ _ => .ok [], fun _ _ _ _ => .ok []⟩
        ⟨"0.1.0", "kbs:///default/key/1", "", "kbs", some "", none, []⟩
        (.Kbs (fun _ => .ok [])) =
      .error "The KEK is provided by `kbs` but no `WrapType` is defined inside the AnnotationPacket")
    ∧ (AnnotationPacketV2.unwrap_key_with
        ⟨fun _ _ _ _ => .ok [], fun _ _ _ _ => .ok []⟩
        ⟨"0.1.0", "uuid00111", "", "kbs", some "", some "A256GCM", []⟩
        (.Kbs (fun _ => .ok [])) =
      .error ("cannot parse the kid into a KBS Resource URI: " ++ "invalid KBS resource URI")) :=
  ⟨C6_v2_kbs_schema_rejection.1 _ _ _ "A256GCM" rfl rfl rfl,
   C6_v2_kbs_schema_rejection.2.1 _ _ _ [] rfl rfl,
   C6_v2_kbs_schema_rejection.2.2.1 _ _ _ rfl rfl,
   C6_v2_kbs_schema_rejection.2.2.2 _ _ _ "A256GCM" "" _ rfl rfl rfl rfl⟩

/-- C7: a V2 packet dispatched to a KMS driver whose name differs from
the packet's provider fails with the provider-mismatch error, for every
possible decrypt capability (so the driver's decrypt is never reached);
when the names agree the result is exactly the driver's decrypt applied
to the base64-decoded wrapped data, the kid and the annotations. -/
theorem C7_v2_kms_dispatch :
    (∀ (S : SymScheme) (nm : String)
        (dec : List Nat → String → List (String × String) → Except String (List Nat))
        (p : AnnotationPacketV2) (wd : List Nat),
      base64Decode p.wrapped_data = some wd → nm ≠ p.provider →
      AnnotationPacketV2.unwrap_key_with S p (.Kms ⟨nm, dec⟩) =
        .error ("cannot decrypt the LEK, because given KEK provider is " ++ nm
          ++ ", but " ++ p.provider ++ " expected"))
    ∧ (∀ (S : SymScheme) (nm : String)
        (dec : List Nat → String → List (String × String) → Except String (List Nat))
        (p : AnnotationPacketV2) (wd : List Nat),
      base64Decode p.wrapped_data = some wd → nm = p.provider →
      AnnotationPacketV2.unwrap_key_with S p (.Kms ⟨nm, dec⟩) =
        dec wd p.kid p.annotations) := by
  constructor
  · intro S nm dec p wd hwd hnm
    simp [AnnotationPacketV2.unwrap_key_with, hwd, ofOption, hnm, except_bind_ok]
  · intro S nm dec p wd hwd hnm
    simp [AnnotationPacketV2.unwrap_key_with, hwd, ofOption, hnm, except_bind_ok]

/-- Witness for C7: the mismatching driver `other` fails without calling
decrypt, the matching driver `ali` returns its decrypt result. -/
theorem C7_v2_kms_dispatch_witness :
    (AnnotationPacketV2.unwrap_key_with
        ⟨fun _ _ _ _ => .ok [], fun _ _ _ _ => .ok []⟩
        ⟨"0.1.0", "uuid00111", "", "ali", none, none, [("region", "cn-hangzhou")]⟩
        (.Kms ⟨"other", fun _ _ _ => .ok [7]⟩) =
      .error ("cannot decrypt the LEK, because given KEK provider is " ++ "other"
        ++ ", but " ++ "ali" ++ " expected"))
    ∧ (AnnotationPacketV2.unwrap_key_with
        ⟨fun _ _ _ _ => .ok [], fun _ _ _ _ => .ok []⟩
        ⟨"0.1.0", "uuid00111", "", "ali", none, none, [("region", "cn-hangzhou")]⟩
        (.Kms ⟨"ali", fun _ _ _ => .ok [7]⟩) = .ok [7]) :=
  by
  constructor
  · exact C7_v2_kms_dispatch.1 _ _ _ _ [] rfl (by decide)
  · exact C7_v2_kms_dispatch.2 _ _ _ _ [] rfl rfl

/-- C9: a key-provider input with op `"keywrap"` is rejected as
unsupported, an input with empty op is rejected as missing, and the
concrete keyunwrap input with a non-empty Dc parameter map and a
non-empty annotation validates as Ok. -/
theorem C9_key_provider_input_validation :
    (∀ (w : KeyWrapParams) (u : KeyUnwrapParams),
      KeyProviderInput.valid ⟨"keywrap", w, u⟩ =
        .error "unsupported operator: \"keywrap\": use a different key provider to encrypt images")
    ∧ (∀ (w : KeyWrapParams) (u : KeyUnwrapParams),
      KeyProviderInput.valid ⟨"", w, u⟩ = .error "missing operator")
    ∧ KeyProviderInput.valid
        ⟨"keyunwrap", ⟨none, none⟩, ⟨some ⟨[("foo", ["bar", "baz"])]⟩, some "annotation"⟩⟩ =
      .ok () := by
  refine ⟨fun w u => rfl, fun w u => rfl, rfl⟩

/-- Reduction of a failed `Except` bind. -/
theorem except_bind_error (e : ε) (f : α → Except ε β) :
    (Except.error e >>= f : Except ε β) = Except.error e := rfl

/-- C1: unsealing a KBS envelope secret composes the KEK fetch (by the
key id parsed as a ResourceUri), the A256GCM DEK unwrap under the IV
from `annotations["iv"]`, and the payload decryption under the
envelope's own wrap type and IV; without an `"iv"` annotation the unseal
never returns a value. -/
theorem C1_envelope_kbs_unseal :
    (∀ (S : SymScheme) (g : ResourceUri → Except String (List Nat))
        (e : Envelope) (v : List Nat),
      List.lookup "iv" e.annotations = none →
      Envelope.unseal_with_kbs S g e ≠ .ok v)
    ∧ (∀ (S : SymScheme) (g : ResourceUri → Except String (List Nat))
        (e : Envelope) (enc_dek : List Nat) (uri : ResourceUri)
        (kek : List Nat) (ivB64 : String) (ivAnn dek iv2 ct : List Nat),
      base64Decode e.encrypted_key = some enc_dek →
      ResourceUri.try_from e.key_id = .ok uri →
      g uri = .ok kek →
      List.lookup "iv" e.annotations = some ivB64 →
      base64Decode ivB64 = some ivAnn →
      S.decrypt kek enc_dek ivAnn WrapType.Aes256Gcm = .ok dek →
      base64Decode e.iv = some iv2 →
      base64Decode e.encrypted_data = some ct →
      Envelope.unseal_with_kbs S g e = S.decrypt dek ct iv2 e.wrap_type) := by
  constructor
  · intro S g e v hlook heq
    cases hdec : base64Decode e.encrypted_key with
    | none =>
        simp [Envelope.unseal_with_kbs, hdec, ofOption, except_bind_error] at heq
    | some enc_dek =>
      cases huri : ResourceUri.try_from e.key_id with
      | error er =>
          simp [Envelope.unseal_with_kbs, hdec, huri, ofOption,
            except_bind_ok, except_bind_error] at heq
      | ok uri =>
        cases hkek : g uri with
        | error er =>
            simp [Envelope.unseal_with_kbs, hdec, huri, hkek, ofOption,
              except_bind_ok, except_bind_error] at heq
        | ok kek =>
            simp [Envelope.unseal_with_kbs, hdec, huri, hkek, hlook, ofOption,
              except_bind_ok, except_bind_error] at heq
  · intro S g e enc_dek uri kek ivB64 ivAnn dek iv2 ct h1 h2 h3 h4 h5 h6 h7 h8
    simp [Envelope.unseal_with_kbs, h1, h2, h3, h4, h5, h6, h7, h8, ofOption,
      except_bind_ok]

/-- Witness for C1: a concrete envelope without an `"iv"` annotation is
rejected; one with it unseals through the described composition. -/
theorem C1_envelope_kbs_unseal_witness :
    (Envelope.unseal_with_kbs ⟨fun _ _ _ _ => .ok [], fun _ c _ _ => .ok c⟩
        (fun _ => .ok [])
        ⟨"kbs:///default/key/1", "", "", WrapType.Aes256Gcm, "", []⟩ ≠ .ok [])
    ∧ (Envelope.unseal_with_kbs ⟨fun _ _ _ _ => .ok [], fun _ c _ _ => .ok c⟩
        (fun _ => .ok [])
        ⟨"kbs:///default/key/1", "", "", WrapType.Aes256Gcm, "", [("iv", "")]⟩ = .ok []) := by
  constructor
  · exact C1_envelope_kbs_unseal.1 _ _ _ [] rfl
  · exact C1_envelope_kbs_unseal.2 _ _ _ [] ⟨"default", "key", "1"⟩ [] "" [] [] [] []
      rfl rfl rfl rfl rfl rfl rfl rfl

/-- C5: decrypting a KBS response fails with the algorithm-mismatch
error whenever the protected header's `alg` is not `"RSA1_5"` (so in
particular for `"RSA-OAEP"`); with `alg = "RSA1_5"` it base64url-nopad
decodes the wrapped key, IV and ciphertext, unwraps the symmetric key
with RSA PKCS#1 v1.5 under the session key pair and returns the
symmetric decryption of the ciphertext under the header's `enc`. -/
theorem C5_decrypt_response_alg_gate :
    (∀ (K' : Type) (S : SymScheme) (env : HsEnv K') (hs : Handshaker K')
        (r : Response) (hdr : ProtectedHeader),
      env.parseHeader r.protectedHeader = .ok hdr →
      hdr.alg ≠ "RSA1_5" →
      Handshaker.decrypt_response S env hs r = .error "Algorithm mismatch for wrapped key.")
    ∧ (∀ (K' : Type) (S : SymScheme) (env : HsEnv K') (hs : Handshaker K')
        (r : Response) (hdr : ProtectedHeader) (k : K') (wk symkey iv ct : List Nat),
      env.parseHeader r.protectedHeader = .ok hdr →
      hdr.alg = "RSA1_5" →
      hs.tee_key = some k →
      base64UrlDecode r.encrypted_key = some wk →
      env.rsaDecrypt k PaddingMode.PKCS1v15 wk = .ok symkey →
      base64UrlDecode r.iv = some iv →
      base64UrlDecode r.ciphertext = some ct →
      Handshaker.decrypt_response S env hs r = S.decrypt symkey ct iv hdr.enc) := by
  constructor
  · intro K' S env hs r hdr hp halg
    simp [Handshaker.decrypt_response, hp, PaddingMode.as_ref, halg,
      except_bind_ok]
  · intro K' S env hs r hdr k wk symkey iv ct hp halg hk hwk hrsa hiv hct
    simp [Handshaker.decrypt_response, hp, PaddingMode.as_ref, halg, hk, hwk,
      hrsa, hiv, hct, ofOption, except_bind_ok]

/-- Witness for C5: a header with `alg="RSA-OAEP"` is rejected; an
`RSA1_5` header decrypts through the described composition. -/
theorem C5_decrypt_response_alg_gate_witness :
    (Handshaker.decrypt_response (K := Unit)
        ⟨fun _ p _ _ => .ok p, fun _ c _ _ => .ok c⟩
        ⟨fun _ => .ok "", (), fun _ => ⟨"RSA1_5", "", ""⟩, fun bs => bs,
         fun _ => .ok [], fun _ _ _ => .ok "", fun _ _ _ => .ok [5],
         fun _ => .ok ⟨"RSA-OAEP", WrapType.Aes256Gcm⟩, fun _ _ => .unauthorized⟩
        ⟨some (), some "http://kbs"⟩ ⟨"", "", "", ""⟩ =
      .error "Algorithm mismatch for wrapped key.")
    ∧ (Handshaker.decrypt_response (K := Unit)
        ⟨fun _ p _ _ => .ok p, fun k _ _ _ => .ok k⟩
        ⟨fun _ => .ok "", (), fun _ => ⟨"RSA1_5", "", ""⟩, fun bs => bs,
         fun _ => .ok [], fun _ _ _ => .ok "", fun _ _ _ => .ok [5],
         fun _ => .ok ⟨"RSA1_5", WrapType.Aes256Gcm⟩, fun _ _ => .unauthorized⟩
        ⟨some (), some "http://kbs"⟩ ⟨"", "", "", ""⟩ = .ok [5]) := by
  constructor
  · exact C5_decrypt_response_alg_gate.1 _ _ _ _ _ ⟨"RSA-OAEP", WrapType.Aes256Gcm⟩
      rfl (by decide)
  · exact C5_decrypt_response_alg_gate.2 _ _ _ _ _ ⟨"RSA1_5", WrapType.Aes256Gcm⟩
      () [] [5] [] [] rfl rfl rfl rfl rfl rfl rfl

/-- A successful handshake leaves the state holding the fresh key and
exactly the host it was run against. -/
theorem handshake_ok_state {K' : Type} (env : HsEnv K') (hs hs' : Handshaker K')
    (host t : String) (h : Handshaker.handshake env hs host = (.ok t, hs')) :
    hs' = { tee_key := some env.freshKey, kbs_host_url := some host } := by
  cases hauth : env.auth host with
  | error e => simp [Handshaker.handshake, hauth] at h
  | ok nonce =>
    cases hev : Handshaker.generate_evidence env nonce
        [strBytes (env.exportPubkey env.freshKey).k_mod,
         strBytes (env.exportPubkey env.freshKey).k_exp] with
    | error e => simp [Handshaker.handshake, hauth, hev] at h
    | ok ev =>
      cases hat : env.attest host (env.exportPubkey env.freshKey) ev with
      | ok token =>
          simp [Handshaker.handshake, hauth, hev, hat] at h
          exact h.2.symm
      | unauthorized i => simp [Handshaker.handshake, hauth, hev, hat] at h
      | other txt => simp [Handshaker.handshake, hauth, hev, hat] at h

/-- C10: the handshake updates `tee_key` and `kbs_host_url` atomically on
success only — every failing path leaves both unchanged, and a changed
state certifies an attest reply of HTTP 200; calling `decrypt_response`
or `get` before any successful handshake yields the "Handshake not
called before!" error. -/
theorem C10_handshake_state_atomicity :
    (∀ (K' : Type) (env : HsEnv K') (hs : Handshaker K') (host e : String),
      (Handshaker.handshake env hs host).1 = .error e →
      (Handshaker.handshake env hs host).2 = hs)
    ∧ (∀ (K' : Type) (env : HsEnv K') (hs : Handshaker K') (host : String),
      (Handshaker.handshake env hs host).2 = hs
      ∨ ∃ nonce ev token,
          env.auth host = .ok nonce ∧
          Handshaker.generate_evidence env nonce
            [strBytes (env.exportPubkey env.freshKey).k_mod,
             strBytes (env.exportPubkey env.freshKey).k_exp] = .ok ev ∧
          env.attest host (env.exportPubkey env.freshKey) ev = .ok token ∧
          Handshaker.handshake env hs host =
            (.ok token, { tee_key := some env.freshKey, kbs_host_url := some host }))
    ∧ (∀ (K' : Type) (S : SymScheme) (env : HsEnv K') (hs : Handshaker K')
        (r : Response) (hdr : ProtectedHeader) (wk : List Nat),
      hs.tee_key = none →
      env.parseHeader r.protectedHeader = .ok hdr →
      hdr.alg = "RSA1_5" →
      base64UrlDecode r.encrypted_key = some wk →
      Handshaker.decrypt_response S env hs r = .error "Handshake not called before!")
    ∧ (∀ (K' : Type) (S : SymScheme) (env : HsEnv K') (hs : Handshaker K')
        (res : ResourceUri) (retry attempt : Nat),
      hs.kbs_host_url = none →
      Handshaker.get S env hs res retry attempt =
        (.error "Handshake not called before!", hs, [])) := by
  refine ⟨?_, ?_, ?_, ?_⟩
  · intro K' env hs host e h
    cases hauth : env.auth host with
    | error e' => simp [Handshaker.handshake, hauth]
    | ok nonce =>
      cases hev : Handshaker.generate_evidence env nonce
          [strBytes (env.exportPubkey env.freshKey).k_mod,
           strBytes (env.exportPubkey env.freshKey).k_exp] with
      | error e' => simp [Handshaker.handshake, hauth, hev]
      | ok ev =>
        cases hat : env.attest host (env.exportPubkey env.freshKey) ev with
        | ok token => simp [Handshaker.handshake, hauth, hev, hat] at h
        | unauthorized i => simp [Handshaker.handshake, hauth, hev, hat]
        | other txt => simp [Handshaker.handshake, hauth, hev, hat]
  · intro K' env hs host
    cases hauth : env.auth host with
    | error e' => left; simp [Handshaker.handshake, hauth]
    | ok nonce =>
      cases hev : Handshaker.generate_evidence env nonce
          [strBytes (env.exportPubkey env.freshKey).k_mod,
           strBytes (env.exportPubkey env.freshKey).k_exp] with
      | error e' => left; simp [Handshaker.handshake, hauth, hev]
      | ok ev =>
        cases hat : env.attest host (env.exportPubkey env.freshKey) ev with
        | ok token =>
            right
            exact ⟨nonce, ev, token, rfl, hev, hat,
              by simp [Handshaker.handshake, hauth, hev, hat]⟩
        | unauthorized i => left; simp [Handshaker.handshake, hauth, hev, hat]
        | other txt => left; simp [Handshaker.handshake, hauth, hev, hat]
  · intro K' S env hs r hdr wk hk hp halg hwk
    simp [Handshaker.decrypt_response, hp, PaddingMode.as_ref, halg, hk, hwk,
      ofOption, except_bind_ok, except_bind_error]
  · intro K' S env hs res retry attempt hh
    cases retry with
    | zero => simp [Handshaker.get, hh]
    | succ n => simp [Handshaker.get, hh]

/-- Witness for C10: with a fresh (never handshaken) state, both
`decrypt_response` on a well-formed RSA1_5 response and `get` report
that the handshake was not called. -/
theorem C10_handshake_state_atomicity_witness :
    (Handshaker.decrypt_response (K := Unit)
        ⟨fun _ p _ _ => .ok p, fun _ c _ _ => .ok c⟩
        ⟨fun _ => .ok "", (), fun _ => ⟨"RSA1_5", "", ""⟩, fun bs => bs,
         fun _ => .ok [], fun _ _ _ => .ok "", fun _ _ _ => .ok [5],
         fun _ => .ok ⟨"RSA1_5", WrapType.Aes256Gcm⟩, fun _ _ => .unauthorized⟩
        ⟨none, none⟩ ⟨"", "", "", ""⟩ = .error "Handshake not called before!")
    ∧ (Handshaker.get (K := Unit)
        ⟨fun _ p _ _ => .ok p, fun _ c _ _ => .ok c⟩
        ⟨fun _ => .ok "", (), fun _ => ⟨"RSA1_5", "", ""⟩, fun bs => bs,
         fun _ => .ok [], fun _ _ _ => .ok "", fun _ _ _ => .ok [5],
         fun _ => .ok ⟨"RSA1_5", WrapType.Aes256Gcm⟩, fun _ _ => .unauthorized⟩
        ⟨none, none⟩ ⟨"default", "key", "1"⟩ 1 0 =
      (.error "Handshake not called before!", ⟨none, none⟩, []))
    ∧ ((Handshaker.handshake (K := Unit)
        ⟨fun _ => .ok "n", (), fun _ => ⟨"RSA1_5", "", ""⟩, fun bs => bs,
         fun _ => .ok [], fun _ _ _ => .unauthorized "bad", fun _ _ _ => .ok [],
         fun _ => .ok ⟨"RSA1_5", WrapType.Aes256Gcm⟩, fun _ _ => .unauthorized⟩
        ⟨some (), some "old"⟩ "h").2 = ⟨some (), some "old"⟩) := by
  refine ⟨?_, ?_, ?_⟩
  · exact C10_handshake_state_atomicity.2.2.1 _ _ _ _ _
      ⟨"RSA1_5", WrapType.Aes256Gcm⟩ [] rfl rfl rfl rfl
  · exact C10_handshake_state_atomicity.2.2.2 _ _ _ _ _ 1 0 rfl
  · exact C10_handshake_state_atomicity.1 _ _ _ "h"
      "KBS attest unauthorized, Error Info: bad" rfl

/-- A resource GET with an exhausted retry budget never re-handshakes. -/
theorem get_zero_trace {K' : Type} (S : SymScheme) (env : HsEnv K')
    (hs : Handshaker K') (res : ResourceUri) (a : Nat) :
    (Handshaker.get S env hs res 0 a).2.2 = [] := by
  cases hh : hs.kbs_host_url with
  | none => simp [Handshaker.get, hh]
  | some host =>
    cases hg : env.getHttp (host ++ "/" ++ KBS_URL_PREFIX ++ "/"
        ++ ResourceUri.resource_path res) a with
    | ok r => simp [Handshaker.get, hh, hg]
    | unauthorized => simp [Handshaker.get, hh, hg]
    | notFound => simp [Handshaker.get, hh, hg]
    | other t => simp [Handshaker.get, hh, hg]

/-- C3: a resource GET answered 401 with retry budget left re-handshakes
exactly once against the very host recorded in the state and retries
with the budget exhausted; if the retried attempt is also 401 the result
is the Unauthorized error; and with the budgets the source can produce
(the `retry` flag, budget at most 1) a GET never performs more than one
re-handshake. -/
theorem C3_kbs_get_retry_once :
    (∀ (K' : Type) (S : SymScheme) (env : HsEnv K') (hs hs' : Handshaker K')
        (res : ResourceUri) (host t : String) (a : Nat),
      hs.kbs_host_url = some host →
      env.getHttp (host ++ "/" ++ KBS_URL_PREFIX ++ "/"
        ++ ResourceUri.resource_path res) a = .unauthorized →
      Handshaker.handshake env hs host = (.ok t, hs') →
      Handshaker.get S env hs res 1 a =
        ((Handshaker.get S env hs' res 0 (a + 1)).1,
         (Handshaker.get S env hs' res 0 (a + 1)).2.1, [host]))
    ∧ (∀ (K' : Type) (S : SymScheme) (env : HsEnv K') (hs hs' : Handshaker K')
        (res : ResourceUri) (host t : String) (a : Nat),
      hs.kbs_host_url = some host →
      env.getHttp (host ++ "/" ++ KBS_URL_PREFIX ++ "/"
        ++ ResourceUri.resource_path res) a = .unauthorized →
      Handshaker.handshake env hs host = (.ok t, hs') →
      env.getHttp (host ++ "/" ++ KBS_URL_PREFIX ++ "/"
        ++ ResourceUri.resource_path res) (a + 1) = .unauthorized →
      (Handshaker.get S env hs res 1 a).1 = .error "Unauthorized request.")
    ∧ (∀ (K' : Type) (S : SymScheme) (env : HsEnv K') (hs : Handshaker K')
        (res : ResourceUri) (retry a : Nat),
      retry ≤ 1 →
      (Handshaker.get S env hs res retry a).2.2.length ≤ 1) := by
  refine ⟨?_, ?_, ?_⟩
  · intro K' S env hs hs' res host t a hh hg hhs
    simp [Handshaker.get, hh, hg, hhs, get_zero_trace]
    split
    · rfl
    · split <;> rfl
  · intro K' S env hs hs' res host t a hh hg hhs hg2
    have hstate := handshake_ok_state env hs hs' host t hhs
    simp [Handshaker.get, hh, hg, hhs]
    subst hstate
    simp [Handshaker.get, hg2]
  · intro K' S env hs res retry a hr
    cases retry with
    | zero => simp [get_zero_trace]
    | succ n =>
      cases hh : hs.kbs_host_url with
      | none => simp [Handshaker.get, hh]
      | some host =>
        cases hg : env.getHttp (host ++ "/" ++ KBS_URL_PREFIX ++ "/"
            ++ ResourceUri.resource_path res) a with
        | ok r => simp [Handshaker.get, hh, hg]
        | unauthorized =>
          have hn : n = 0 := by omega
          subst hn
          cases hhs : Handshaker.handshake env hs host with
          | mk fst hs' =>
            cases fst with
            | error e => simp [Handshaker.get, hh, hg, hhs]
            | ok tok =>
                simp [Handshaker.get, hh, hg, hhs, get_zero_trace]
                split
                · rfl
                · split <;> rfl
        | notFound => simp [Handshaker.get, hh, hg]
        | other t => simp [Handshaker.get, hh, hg]

/-- Witness for C3: a server answering 401 on every attempt makes the
retrying GET re-handshake exactly once against the recorded host and
surface the Unauthorized error. -/
theorem C3_kbs_get_retry_once_witness :
    ((Handshaker.get (K := Unit)
        ⟨fun _ p _ _ => .ok p, fun _ c _ _ => .ok c⟩
        ⟨fun _ => .ok "n", (), fun _ => ⟨"RSA1_5", "", ""⟩, fun bs => bs,
         fun _ => .ok [], fun _ _ _ => .ok "t", fun _ _ _ => .ok [],
         fun _ => .ok ⟨"RSA1_5", WrapType.Aes256Gcm⟩, fun _ _ => .unauthorized⟩
        ⟨some (), some "h"⟩ ⟨"default", "key", "1"⟩ 1 0).1 =
      .error "Unauthorized request.")
    ∧ (Handshaker.get (K := Unit)
        ⟨fun _ p _ _ => .ok p, fun _ c _ _ => .ok c⟩
        ⟨fun _ => .ok "n", (), fun _ => ⟨"RSA1_5", "", ""⟩, fun bs => bs,
         fun _ => .ok [], fun _ _ _ => .ok "t", fun _ _ _ => .ok [],
         fun _ => .ok ⟨"RSA1_5", WrapType.Aes256Gcm⟩, fun _ _ => .unauthorized⟩
        ⟨some (), some "h"⟩ ⟨"default", "key", "1"⟩ 1 0 =
      ((Handshaker.get (K := Unit)
          ⟨fun _ p _ _ => .ok p, fun _ c _ _ => .ok c⟩
          ⟨fun _ => .ok "n", (), fun _ => ⟨"RSA1_5", "", ""⟩, fun bs => bs,
           fun _ => .ok [], fun _ _ _ => .ok "t", fun _ _ _ => .ok [],
           fun _ => .ok ⟨"RSA1_5", WrapType.Aes256Gcm⟩, fun _ _ => .unauthorized⟩
          ⟨some (), some "h"⟩ ⟨"default", "key", "1"⟩ 0 1).1,
       (Handshaker.get (K := Unit)
          ⟨fun _ p _ _ => .ok p, fun _ c _ _ => .ok c⟩
          ⟨fun _ => .ok "n", (), fun _ => ⟨"RSA1_5", "", ""⟩, fun bs => bs,
           fun _ => .ok [], fun _ _ _ => .ok "t", fun _ _ _ => .ok [],
           fun _ => .ok ⟨"RSA1_5", WrapType.Aes256Gcm⟩, fun _ _ => .unauthorized⟩
          ⟨some (), some "h"⟩ ⟨"default", "key", "1"⟩ 0 1).2.1, ["h"]))
    ∧ ((Handshaker.get (K := Unit)
        ⟨fun _ p _ _ => .ok p, fun _ c _ _ => .ok c⟩
        ⟨fun _ => .ok "n", (), fun _ => ⟨"RSA1_5", "", ""⟩, fun bs => bs,
         fun _ => .ok [], fun _ _ _ => .ok "t", fun _ _ _ => .ok [],
         fun _ => .ok ⟨"RSA1_5", WrapType.Aes256Gcm⟩, fun _ _ => .unauthorized⟩
        ⟨some (), some "h"⟩ ⟨"default", "key", "1"⟩ 1 0).2.2.length ≤ 1) := by
  refine ⟨?_, ?_, ?_⟩
  · exact C3_kbs_get_retry_once.2.1 _ _ _ _ ⟨some (), some "h"⟩ _ "h" "t" 0
      rfl rfl rfl rfl
  · exact C3_kbs_get_retry_once.1 _ _ _ _ ⟨some (), some "h"⟩ _ "h" "t" 0
      rfl rfl rfl
  · exact C3_kbs_get_retry_once.2.2 _ _ _ _ _ 1 0 (by decide)

/-- C2: sealing a plaintext under a key id through KBS and unsealing the
resulting envelope with the same KBS client returns the plaintext, for
every symmetric scheme whose decrypt inverts its encrypt (and which
produces well-formed bytes); and the serialization of a `Secret`
carrying an envelope has exactly the nine fields {version, provider,
type, key_id, encrypted_key, encrypted_data, wrap_type, iv,
annotations}. -/
theorem C2_envelope_roundtrip :
    (∀ (S : SymScheme) (g : ResourceUri → Except String (List Nat))
        (symKey symIv sealedIv data : List Nat) (keyid : String) (e : Envelope),
      (∀ k p iv t c, S.encrypt k p iv t = .ok c → S.decrypt k c iv t = .ok p) →
      (∀ k p iv t c, S.encrypt k p iv t = .ok c → ValidBytes p → ValidBytes c) →
      ValidBytes symKey → ValidBytes symIv → ValidBytes sealedIv → ValidBytes data →
      Envelope.seal_with_kbs S g symKey symIv sealedIv keyid data = .ok e →
      Envelope.unseal_with_kbs S g e = .ok data)
    ∧ (∀ (ver prov : String) (e : Envelope),
      Json.topKeys (Secret.serialize ⟨ver, prov, .Envelope e⟩) =
        ["version", "provider", "type", "key_id", "encrypted_key",
         "encrypted_data", "wrap_type", "iv", "annotations"]) := by
  constructor
  · intro S g symKey symIv sealedIv data keyid e hinv hval hvk hviv hvsiv hvd hseal
    cases hct : S.encrypt symKey data symIv WrapType.Aes256Gcm with
    | error er =>
        simp [Envelope.seal_with_kbs, hct, except_bind_error] at hseal
    | ok ct =>
      cases huri : ResourceUri.try_from keyid with
      | error er =>
          simp [Envelope.seal_with_kbs, hct, huri, except_bind_ok,
            except_bind_error] at hseal
      | ok uri =>
        cases hkek : g uri with
        | error er =>
            simp [Envelope.seal_with_kbs, hct, huri, hkek, except_bind_ok,
              except_bind_error] at hseal
        | ok kek =>
          cases henc : S.encrypt kek symKey sealedIv WrapType.Aes256Gcm with
          | error er =>
              simp [Envelope.seal_with_kbs, hct, huri, hkek, henc,
                except_bind_ok, except_bind_error] at hseal
          | ok encKey =>
            simp [Envelope.seal_with_kbs, hct, huri, hkek, henc,
              except_bind_ok] at hseal
            have hdk : base64Decode (base64Encode encKey) = some encKey :=
              base64_roundtrip _ (hval _ _ _ _ _ henc hvk)
            have hdct : base64Decode (base64Encode ct) = some ct :=
              base64_roundtrip _ (hval _ _ _ _ _ hct hvd)
            have hdsiv : base64Decode (base64Encode sealedIv) = some sealedIv :=
              base64_roundtrip _ hvsiv
            have hdsymiv : base64Decode (base64Encode symIv) = some symIv :=
              base64_roundtrip _ hviv
            have hdec1 : S.decrypt kek encKey sealedIv WrapType.Aes256Gcm = .ok symKey :=
              hinv _ _ _ _ _ henc
            have hdec2 : S.decrypt symKey ct symIv WrapType.Aes256Gcm = .ok data :=
              hinv _ _ _ _ _ hct
            subst hseal
            simp [Envelope.unseal_with_kbs, hdk, huri, hkek, hdsiv, hdsymiv,
              hdct, hdec1, hdec2, ofOption, except_bind_ok, List.lookup]
  · intro ver prov e
    simp [Secret.serialize, SecretContent.serializeFields, Json.topKeys]

/-- Witness for C2: a concrete seal/unseal pair with a scheme whose
encrypt is the identity on the plaintext, and the field list of a
serialized enveloped secret. -/
theorem C2_envelope_roundtrip_witness :
    (Envelope.unseal_with_kbs ⟨fun _ p _ _ => .ok p, fun _ c _ _ => .ok c⟩
        (fun _ => .ok [9])
        ⟨"kbs:///default/key/1", "AQ==", "BAU=", WrapType.Aes256Gcm, "Ag==",
         [("iv", "Aw==")]⟩ = .ok [4, 5])
    ∧ (Json.topKeys (Secret.serialize ⟨"0.1.0", "kbs",
        .Envelope ⟨"kbs:///default/key/1", "AQ==", "BAU=", WrapType.Aes256Gcm,
          "Ag==", [("iv", "Aw==")]⟩⟩) =
        ["version", "provider", "type", "key_id", "encrypted_key",
         "encrypted_data", "wrap_type", "iv", "annotations"]) := by
  constructor
  · exact C2_envelope_roundtrip.1 ⟨fun _ p _ _ => .ok p, fun _ c _ _ => .ok c⟩
      (fun _ => .ok [9]) [1] [2] [3] [4, 5] "kbs:///default/key/1" _
      (fun k p iv t c h => by injection h with h'; subst h'; rfl)
      (fun k p iv t c h hv => by injection h with h'; subst h'; exact hv)
      (by decide) (by decide) (by decide) (by decide) rfl
  · exact C2_envelope_roundtrip.2 "0.1.0" "kbs" _

/-- Counterexample to C8 as stated: a packet carrying a top-level
`version` field (and a `provider`, like the V2 KBS packets of the
repository's own tests) is decoded as V1, not V2, because the untagged
decoder tries V1 first and serde ignores the unknown fields. -/
theorem C8_version_field_still_decodes_as_v1 :
    AnnotationPacket.deserialize (Json.obj
      [("version", Json.str "0.1.0"),
       ("kid", Json.str "kbs:///default/key/1"),
       ("wrapped_data", Json.str "xxx"),
       ("provider", Json.str "kbs"),
       ("iv", Json.str "yyy"),
       ("wrap_type", Json.str "A256GCM"),
       ("annotations", Json.obj [])]) =
    some (.V1 ⟨⟨"default", "key", "1"⟩, "xxx", "yyy", "A256GCM"⟩) := by
  rfl

/-- C8 amended: a packet is decoded as V1 exactly when it satisfies the
V1 shape — its `kid` is a string parsing as a ResourceUri and
`wrapped_data`, `iv` and `wrap_type` are present as strings — regardless
of any top-level `version` field; only packets failing the V1 shape are
dispatched as V2. -/
theorem C8_v1_v2_dispatch :
    (∀ (j : Json) (p : AnnotationPacketV1),
      AnnotationPacket.deserialize j = some (.V1 p) ↔
        AnnotationPacketV1.deserialize j = some p)
    ∧ (∀ (j : Json),
      AnnotationPacketV1.deserialize j = none →
      AnnotationPacket.deserialize j = (AnnotationPacketV2.deserialize j).map .V2)
    ∧ (∀ (fields : List (String × Json)) (kidS wd iv wt : String) (uri : ResourceUri),
      List.lookup "kid" fields = some (.str kidS) →
      ResourceUri.try_from kidS = .ok uri →
      List.lookup "wrapped_data" fields = some (.str wd) →
      List.lookup "iv" fields = some (.str iv) →
      List.lookup "wrap_type" fields = some (.str wt) →
      AnnotationPacket.deserialize (.obj fields) = some (.V1 ⟨uri, wd, iv, wt⟩)) := by
  refine ⟨?_, ?_, ?_⟩
  · intro j p
    constructor
    · intro h
      cases hv1 : AnnotationPacketV1.deserialize j with
      | none =>
          simp [AnnotationPacket.deserialize, hv1] at h
      | some v1 =>
          simp [AnnotationPacket.deserialize, hv1] at h
          exact congrArg some h
    · intro h
      simp [AnnotationPacket.deserialize, h]
  · intro j h
    simp [AnnotationPacket.deserialize, h]
  · intro fields kidS wd iv wt uri hkid huri hwd hiv hwt
    simp [AnnotationPacket.deserialize, AnnotationPacketV1.deserialize,
      hkid, huri, hwd, hiv, hwt, Json.asString, Option.bind]

/-- Witness for C8's amended dispatch rule, at the packet of the
counterexample (V1 shape plus a `version` field) and at a V2-only KMS
packet lacking the V1 fields. -/
theorem C8_v1_v2_dispatch_witness :
    (AnnotationPacket.deserialize (Json.obj
      [("version", Json.str "0.1.0"),
       ("kid", Json.str "kbs:///default/key/2"),
       ("wrapped_data", Json.str "www"),
       ("provider", Json.str "kbs"),
       ("iv", Json.str "yyy"),
       ("wrap_type", Json.str "A256GCM"),
       ("annotations", Json.obj [])]) =
      some (.V1 ⟨⟨"default", "key", "2"⟩, "www", "yyy", "A256GCM"⟩))
    ∧ (AnnotationPacket.deserialize (Json.obj
      [("version", Json.str "0.1.0"),
       ("kid", Json.str "uuid00111"),
       ("wrapped_data", Json.str "xxx"),
       ("provider", Json.str "ali"),
       ("annotations", Json.obj [("region", Json.str "cn-hangzhou")])]) =
      some (.V2 ⟨"0.1.0", "uuid00111", "xxx", "ali", none, none,
        [("region", "cn-hangzhou")]⟩)) := by
  constructor
  · exact C8_v1_v2_dispatch.2.2 _ "kbs:///default/key/2" "www" "yyy" "A256GCM"
      ⟨"default", "key", "2"⟩ rfl rfl rfl rfl rfl
  · have h := C8_v1_v2_dispatch.2.1 (Json.obj
      [("version", Json.str "0.1.0"),
       ("kid", Json.str "uuid00111"),
       ("wrapped_data", Json.str "xxx"),
       ("provider", Json.str "ali"),
       ("annotations", Json.obj [("region", Json.str "cn-hangzhou")])]) rfl
    rw [h]
    rfl
